import Mathlib

/-!
Verification of the spectral ocean simulation pipeline (p3d_ocean).

The definitions below are a shallow embedding of the pipeline-orchestration
code in `src/ocean` and `src/app`: texture objects are modelled by identity
(small inductive types), compute-node construction by pure functions that
record the dispatch sizes, sort-bin orders and shader-input bindings the
Python constructors install, and mutable attributes by explicit state
records.  Python `float` values that are merely stored and never computed
with are modelled as `ℚ`; the random phases are modelled over an arbitrary
linear ordered field so that the real-number reading is an instance.
-/

/-! ## OceanIFFT2D (src/ocean/ocean_ifft2d.py) -/

/-- Texture objects of the IFFT engine, by identity: the input time-spectrum
texture handed to the constructor, and the two scratch textures it creates
(`fft_ping`, `fft_pong`). -/
inductive FTex where
  | input
  | ping
  | pong
deriving DecidableEq, Repr

/-- One butterfly compute pass as configured inside `OceanIFFT2D.__init__`:
which direction shader it uses, its `u_subseq_count` shader input, the
`fixed` sort-bin order given to `set_bin`, and the textures bound to
`u_input` and `u_output`. -/
structure FFTPass where
  horizontal : Bool
  subseqCount : Nat
  binOrder : Nat
  inputTex : FTex
  outputTex : FTex
deriving DecidableEq, Repr

/-- The loop state of `OceanIFFT2D.__init__`: the `current_in` / `current_out`
texture variables, the running `order` counter, and the passes attached so
far (in attachment order). -/
structure FFTState where
  currentIn : FTex
  currentOut : FTex
  order : Nat
  passes : List FFTPass
deriving DecidableEq, Repr

/-- The swap expression `self.pong if current_out is self.ping else self.ping`
from `OceanIFFT2D.__init__`. -/
def otherScratch (t : FTex) : FTex :=
  if t = FTex.ping then FTex.pong else FTex.ping

/-- One iteration of either construction loop of `OceanIFFT2D.__init__`:
`p = 1 << stage`, attach a compute node with bin `order`, shader inputs
`u_subseq_count = p`, `u_input = current_in`, `u_output = current_out`,
then `order += 1` and
`current_in, current_out = current_out, (pong if current_out is ping else ping)`. -/
def fftStage (horizontal : Bool) (st : FFTState) (stage : Nat) : FFTState :=
  { currentIn := st.currentOut
    currentOut := otherScratch st.currentOut
    order := st.order + 1
    passes := st.passes ++
      [{ horizontal := horizontal
         subseqCount := 2 ^ stage
         binOrder := st.order
         inputTex := st.currentIn
         outputTex := st.currentOut }] }

/-- `for stage in range(self._stages): ...` — one of the two construction
loops of `OceanIFFT2D.__init__`. -/
def runStages (horizontal : Bool) (stages : Nat) (st : FFTState) : FFTState :=
  (List.range stages).foldl (fftStage horizontal) st

/-- The pass-construction part of `OceanIFFT2D.__init__` (after validation):
`stages = int(math.log2(n))` (exact for the power-of-two `n` that passes
validation), starting from `current_in = input_spectrum`,
`current_out = ping`, `order = bin_start`, run the horizontal loop then the
vertical loop. -/
def oceanIFFT2DBuild (n : Nat) (binStart : Nat) : FFTState :=
  runStages false (Nat.log2 n)
    (runStages true (Nat.log2 n)
      { currentIn := FTex.input
        currentOut := FTex.ping
        order := binStart
        passes := [] })

/-- `self.displacement = current_in` at the end of `OceanIFFT2D.__init__`. -/
def displacementTex (st : FFTState) : FTex :=
  st.currentIn

/-- Message of the `ValueError` raised by `OceanIFFT2D.__init__`. -/
def fftResolutionErr : String :=
  "resolution must be a power of two"

/-- `OceanIFFT2D.__init__`: `n = int(self.config.resolution)`; if
`n <= 0 or (n & (n - 1)) != 0` raise `ValueError` (before any texture,
shader or compute node is created), otherwise build the passes.  The
bitwise test is taken on `n.toNat`; for `n ≤ 0` the first disjunct fires
first, exactly as the Python `or` short-circuits. -/
def oceanIFFT2DInit (resolution : Int) (binStart : Nat) : Except String FFTState :=
  if resolution ≤ 0 ∨ (resolution.toNat &&& (resolution.toNat - 1)) ≠ 0 then
    Except.error fftResolutionErr
  else
    Except.ok (oceanIFFT2DBuild resolution.toNat binStart)

/-- `self._workgroup_size_x = 256` in `OceanIFFT2D.__init__`. -/
def fftWorkgroupSizeX : Nat := 256

/-- `self._thread_count = n // 2` in `OceanIFFT2D.__init__`. -/
def fftThreadCount (n : Nat) : Nat := n / 2

/-- `self._groups_x = (self._thread_count + self._workgroup_size_x - 1) //
self._workgroup_size_x` in `OceanIFFT2D.__init__`; each pass dispatches
`(self._groups_x, n, 1)`. -/
def fftGroupsX (n : Nat) : Nat :=
  (fftThreadCount n + fftWorkgroupSizeX - 1) / fftWorkgroupSizeX

/-! ### Closed form for the construction loops -/

/-- Scratch texture written by the `j`-th pass (counting across both loops):
`fft_ping` for even `j`, `fft_pong` for odd `j`. -/
def scratchAt (j : Nat) : FTex :=
  if j % 2 = 0 then FTex.ping else FTex.pong

/-- Texture read by the `j`-th pass: the input spectrum for the very first
pass, afterwards the scratch texture the previous pass wrote. -/
def globalPassInput (j : Nat) : FTex :=
  if j = 0 then FTex.input else scratchAt (j - 1)

/-- The loop state of `OceanIFFT2D.__init__` after `j` passes have been
attached, with `bin_start = b`. -/
def midState (b j : Nat) (ps : List FFTPass) : FFTState :=
  { currentIn := globalPassInput j
    currentOut := scratchAt j
    order := b + j
    passes := ps }

/-- Closed form of the `j`-th attached pass (global index across the
horizontal loop, then the vertical loop, with `s` stages each). -/
def passSpec (s b j : Nat) : FFTPass :=
  { horizontal := decide (j < s)
    subseqCount := 2 ^ (if j < s then j else j - s)
    binOrder := b + j
    inputTex := globalPassInput j
    outputTex := scratchAt j }

theorem otherScratch_scratchAt (j : Nat) :
    otherScratch (scratchAt j) = scratchAt (j + 1) := by
  rcases Nat.mod_two_eq_zero_or_one j with h | h <;>
    simp [otherScratch, scratchAt, Nat.add_mod, h]

theorem fftStage_midState (h : Bool) (b j stage : Nat) (ps : List FFTPass) :
    fftStage h (midState b j ps) stage =
      midState b (j + 1)
        (ps ++ [{ horizontal := h
                  subseqCount := 2 ^ stage
                  binOrder := b + j
                  inputTex := globalPassInput j
                  outputTex := scratchAt j }]) := by
  simp [fftStage, midState, otherScratch_scratchAt, globalPassInput, Nat.add_assoc]

theorem runStages_midState (h : Bool) (k b j : Nat) (ps : List FFTPass) :
    runStages h k (midState b j ps) =
      midState b (j + k)
        (ps ++ (List.range k).map (fun i =>
          { horizontal := h
            subseqCount := 2 ^ i
            binOrder := b + (j + i)
            inputTex := globalPassInput (j + i)
            outputTex := scratchAt (j + i) })) := by
  induction k with
  | zero => simp [runStages]
  | succ k ih =>
    have hfold : runStages h (k + 1) (midState b j ps) =
        fftStage h (runStages h k (midState b j ps)) k := by
      simp [runStages, List.range_succ]
    rw [hfold, ih, fftStage_midState]
    simp only [List.range_succ, List.map_append, List.map_cons, List.map_nil,
      List.append_assoc, List.singleton_append]
    have : j + k + 1 = j + (k + 1) := by omega
    rw [this]

theorem oceanIFFT2DBuild_eq (s b : Nat) :
    oceanIFFT2DBuild (2 ^ s) b =
      midState b (2 * s) ((List.range (2 * s)).map (passSpec s b)) := by
  have hlog : Nat.log2 (2 ^ s) = s := by
    rw [Nat.log2_eq_log_two]
    exact Nat.log_pow Nat.one_lt_two s
  have hstart : (⟨FTex.input, FTex.ping, b, []⟩ : FFTState) = midState b 0 [] := by
    simp [midState, globalPassInput, scratchAt]
  rw [oceanIFFT2DBuild, hlog, hstart, runStages_midState, runStages_midState]
  simp only [List.nil_append, Nat.zero_add]
  have hsplit : List.range (2 * s) = List.range s ++ (List.range s).map (s + ·) := by
    rw [Nat.two_mul, List.range_add]
  rw [hsplit, List.map_append, List.map_map]
  refine congrArg₂ _ (by omega) ?_
  refine congrArg₂ _ ?_ ?_
  · refine List.map_congr_left fun i hi => ?_
    have his : i < s := List.mem_range.mp hi
    simp [passSpec, his]
  · refine List.map_congr_left fun i _ => ?_
    have h1 : ¬ s + i < s := by omega
    simp [passSpec, Function.comp, h1, Nat.add_sub_cancel_left, Nat.add_assoc]

/-! ### The power-of-two test `n & (n - 1) == 0` -/

theorem land_pred_eq_zero_iff (n : Nat) (hn : 0 < n) :
    n &&& (n - 1) = 0 ↔ ∃ k, n = 2 ^ k := by
  constructor
  · intro h
    refine ⟨n.log2, ?_⟩
    by_contra hne
    have hn' : n ≠ 0 := by omega
    have h1 : 2 ^ n.log2 ≤ n := Nat.log2_self_le hn'
    have h2 : n < 2 ^ (n.log2 + 1) := (Nat.log2_lt hn').mp (Nat.lt_succ_self _)
    have h3 : 2 ^ n.log2 < n := lt_of_le_of_ne h1 fun he => hne he.symm
    rw [pow_succ] at h2
    have hd1 : n / 2 ^ n.log2 = 1 := Nat.div_eq_of_lt_le (by omega) (by omega)
    have hd2 : (n - 1) / 2 ^ n.log2 = 1 := Nat.div_eq_of_lt_le (by omega) (by omega)
    have hb : (n &&& (n - 1)).testBit n.log2 = true := by
      rw [Nat.testBit_and]
      simp [Nat.testBit_to_div_mod, hd1, hd2]
    rw [h] at hb
    simp at hb
  · rintro ⟨k, rfl⟩
    apply Nat.eq_of_testBit_eq
    intro i
    simp only [Nat.testBit_and, Nat.testBit_two_pow, Nat.testBit_two_pow_sub_one,
      Nat.zero_testBit]
    rcases Nat.lt_or_ge i k with hik | hik
    · simp [Nat.ne_of_gt hik]
    · simp [show ¬ i < k by omega]

/-- C4: `OceanIFFT2D` construction raises `ValueError` exactly when the
configured resolution is not a positive power of two; the check runs before
any texture, shader or compute node is created (the error branch of
`oceanIFFT2DInit` carries no construction state at all). -/
theorem oceanIFFT2DInit_error_iff (resolution : Int) (binStart : Nat) :
    oceanIFFT2DInit resolution binStart = Except.error fftResolutionErr
      ↔ ¬ ∃ k : Nat, resolution = 2 ^ k := by
  unfold oceanIFFT2DInit
  by_cases hc : resolution ≤ 0 ∨ (resolution.toNat &&& (resolution.toNat - 1)) ≠ 0
  · rw [if_pos hc]
    refine iff_of_true rfl ?_
    rintro ⟨k, hk⟩
    subst hk
    rcases hc with hc | hc
    · have : (0 : ℤ) < 2 ^ k := by positivity
      omega
    · apply hc
      have h2 : ((2 : ℤ) ^ k).toNat = 2 ^ k := by
        rw [show ((2 : ℤ) ^ k) = ((2 ^ k : ℕ) : ℤ) by push_cast; ring, Int.toNat_natCast]
      rw [h2]
      exact (land_pred_eq_zero_iff (2 ^ k) (Nat.two_pow_pos k)).mpr ⟨k, rfl⟩
  · rw [if_neg hc]
    push_neg at hc
    obtain ⟨hpos, hland⟩ := hc
    refine iff_of_false (by simp) ?_
    intro hne
    obtain ⟨k, hk⟩ := (land_pred_eq_zero_iff _ (by omega)).mp hland
    refine hne ⟨k, ?_⟩
    have hres := Int.toNat_of_nonneg (le_of_lt hpos)
    rw [← hres, hk]
    push_cast
    ring

/-! ### Claim C1 -/

/-- Fallback value for `List.getD` on pass lists. -/
def dummyPass : FFTPass :=
  { horizontal := true
    subseqCount := 0
    binOrder := 0
    inputTex := FTex.input
    outputTex := FTex.input }

theorem getD_map_range {α : Type} (f : Nat → α) (d : α) (n j : Nat) (hj : j < n) :
    ((List.range n).map f).getD j d = f j := by
  have hlen : j < ((List.range n).map f).length := by simpa using hj
  rw [List.getD_eq_getElem?_getD, List.getElem?_eq_getElem hlen]
  simp

theorem build_passes_getD (s b j : Nat) (d : FFTPass) (hj : j < 2 * s) :
    (oceanIFFT2DBuild (2 ^ s) b).passes.getD j d = passSpec s b j := by
  rw [oceanIFFT2DBuild_eq]
  exact getD_map_range _ _ _ _ hj

/-- C1: for every power-of-two resolution `N = 2 ^ (s + 1) ≥ 2` and any
`bin_start`, the `OceanIFFT2D` constructor attaches exactly `log₂ N`
horizontal butterfly passes followed by exactly `log₂ N` vertical ones; the
pass with per-direction stage index `p` gets `u_subseq_count = 2 ^ p`; pass
0 reads the input spectrum, and each later pass reads exactly the texture
the previous pass writes, the written scratch texture alternating between
`fft_ping` and `fft_pong`; the exposed `displacement` texture is the output
of the final pass; and the input spectrum texture is never bound as any
pass's `u_output`. -/
theorem oceanIFFT2D_pass_structure (s b : Nat) :
    ((oceanIFFT2DBuild (2 ^ (s + 1)) b).passes.length = 2 * (s + 1))
    ∧ (∀ p, p < s + 1 →
        ((oceanIFFT2DBuild (2 ^ (s + 1)) b).passes.getD p dummyPass).horizontal = true
        ∧ ((oceanIFFT2DBuild (2 ^ (s + 1)) b).passes.getD p dummyPass).subseqCount = 2 ^ p
        ∧ ((oceanIFFT2DBuild (2 ^ (s + 1)) b).passes.getD (s + 1 + p) dummyPass).horizontal
            = false
        ∧ ((oceanIFFT2DBuild (2 ^ (s + 1)) b).passes.getD (s + 1 + p) dummyPass).subseqCount
            = 2 ^ p)
    ∧ ((oceanIFFT2DBuild (2 ^ (s + 1)) b).passes.getD 0 dummyPass).inputTex = FTex.input
    ∧ (∀ j, j + 1 < 2 * (s + 1) →
        ((oceanIFFT2DBuild (2 ^ (s + 1)) b).passes.getD (j + 1) dummyPass).inputTex
          = ((oceanIFFT2DBuild (2 ^ (s + 1)) b).passes.getD j dummyPass).outputTex
        ∧ ((oceanIFFT2DBuild (2 ^ (s + 1)) b).passes.getD (j + 1) dummyPass).outputTex
          = otherScratch (((oceanIFFT2DBuild (2 ^ (s + 1)) b).passes.getD j dummyPass).outputTex))
    ∧ displacementTex (oceanIFFT2DBuild (2 ^ (s + 1)) b)
        = ((oceanIFFT2DBuild (2 ^ (s + 1)) b).passes.getD (2 * (s + 1) - 1) dummyPass).outputTex
    ∧ (∀ q ∈ (oceanIFFT2DBuild (2 ^ (s + 1)) b).passes, q.outputTex ≠ FTex.input) := by
  refine ⟨?_, ?_, ?_, ?_, ?_, ?_⟩
  · rw [oceanIFFT2DBuild_eq]
    simp [midState]
  · intro p hp
    rw [build_passes_getD _ _ _ _ (by omega), build_passes_getD _ _ _ _ (by omega)]
    refine ⟨by simp [passSpec, hp], by simp [passSpec, hp], ?_, ?_⟩
    · simp [passSpec, show ¬ s + 1 + p < s + 1 by omega]
    · simp [passSpec, show ¬ s + 1 + p < s + 1 by omega, Nat.add_sub_cancel_left]
  · rw [build_passes_getD _ _ _ _ (by omega)]
    simp [passSpec, globalPassInput]
  · intro j hj
    rw [build_passes_getD _ _ _ _ (by omega), build_passes_getD _ _ _ _ (by omega)]
    constructor
    · simp [passSpec, globalPassInput]
    · simp only [passSpec]
      exact (otherScratch_scratchAt j).symm
  · rw [build_passes_getD _ _ _ _ (by omega), oceanIFFT2DBuild_eq]
    simp [displacementTex, midState, passSpec, globalPassInput]
  · intro q hq
    rw [oceanIFFT2DBuild_eq] at hq
    simp only [midState, List.mem_map, List.mem_range] at hq
    obtain ⟨i, -, rfl⟩ := hq
    rcases Nat.mod_two_eq_zero_or_one i with h | h <;> simp [passSpec, scratchAt, h]

theorem oceanIFFT2D_pass_structure_witness :
    0 < 0 + 1
    ∧ ((oceanIFFT2DBuild (2 ^ (0 + 1)) 10).passes.getD 0 dummyPass).subseqCount = 2 ^ 0 :=
  ⟨by decide, ((oceanIFFT2D_pass_structure 0 10).2.1 0 (by decide)).2.1⟩

/-! ## Per-tick stage ordering (claim C3)

Sort-bin constants from the constructors: `ocean_time_spectrum.py` gives the
phase node bin 0 and the time-spectrum node bin 1; `OceanIFFT2D` is built by
`OceanApp` with its default `bin_start = 10`; `OceanDisplacement` is built
with its default `bin_start = 100`, giving the unpack node bin 100 and the
slope node bin 101. -/

/-- The `fixed`-bin sort keys of every per-tick compute stage, in pipeline
order: phase advance, time-spectrum assembly, the IFFT butterfly passes (at
the IFFT's default `bin_start = 10`), displacement unpack and slope (at the
extractor's default `bin_start = 100`). -/
def pipelineBins (n : Nat) : List Nat :=
  [0, 1] ++ (oceanIFFT2DBuild n 10).passes.map (fun q => q.binOrder) ++ [100, 101]

/-- C3: with the default bin-start arguments and any power-of-two resolution
`N = 2 ^ s` with `10 + 2·log₂ N ≤ 100`, the IFFT passes carry bins
`10, 11, …, 10 + 2·log₂ N − 1` in pass order, and the full per-tick bin
sequence — phase 0, assembly 1, the butterfly passes, unpack 100,
slope 101 — is strictly increasing. -/
theorem pipelineBins_strictly_increasing (s : Nat) (hs : 10 + 2 * s ≤ 100) :
    ((oceanIFFT2DBuild (2 ^ s) 10).passes.map (fun q => q.binOrder)
        = (List.range (2 * s)).map (fun i => 10 + i))
    ∧ List.Pairwise (· < ·) (pipelineBins (2 ^ s)) := by
  have hbins : (oceanIFFT2DBuild (2 ^ s) 10).passes.map (fun q => q.binOrder)
      = (List.range (2 * s)).map (fun i => 10 + i) := by
    rw [oceanIFFT2DBuild_eq]
    simp [midState, List.map_map, passSpec, Function.comp]
  refine ⟨hbins, ?_⟩
  unfold pipelineBins
  rw [hbins]
  have hmid : List.Pairwise (· < ·) ((List.range (2 * s)).map (fun i => 10 + i)) := by
    refine List.Pairwise.map _ ?_ (List.pairwise_lt_range (2 * s))
    intro a c hac
    omega
  rw [List.pairwise_append]
  refine ⟨?_, by decide, ?_⟩
  · rw [List.pairwise_append]
    refine ⟨by decide, hmid, ?_⟩
    intro a ha c hc
    simp only [List.mem_map, List.mem_range] at hc
    obtain ⟨i, hi, rfl⟩ := hc
    have ha2 : a = 0 ∨ a = 1 := by simpa using ha
    omega
  · intro a ha c hc
    have hc2 : c = 100 ∨ c = 101 := by simpa using hc
    rcases List.mem_append.mp ha with h | h
    · have ha2 : a = 0 ∨ a = 1 := by simpa using h
      omega
    · simp only [List.mem_map, List.mem_range] at h
      obtain ⟨i, hi, rfl⟩ := h
      omega

theorem pipelineBins_strictly_increasing_witness :
    10 + 2 * 3 ≤ 100 ∧ List.Pairwise (· < ·) (pipelineBins (2 ^ 3)) :=
  ⟨by decide, (pipelineBins_strictly_increasing 3 (by decide)).2⟩

/-! ## Dispatch coverage (claim C10) -/

/-- `int((self.config.resolution + 31) // 32)`: the per-axis workgroup count
computed identically in `ocean_spectrum_generator.py`,
`ocean_time_spectrum.py` and `ocean_displacement.py`.  Resolution is a
positive `int` at every call site, where Python floor division coincides
with `Nat` division. -/
def perCellGroups (resolution : Nat) : Nat :=
  (resolution + 31) / 32

/-- The `(groups, groups, 1)` dispatch triple used by the per-cell stages
(initial spectrum, phase advance, time-spectrum assembly, displacement
unpack, slope). -/
def perCellDispatch (resolution : Nat) : Nat × Nat × Nat :=
  (perCellGroups resolution, perCellGroups resolution, 1)

/-- Modelled from the spec: the per-cell compute kernels live in shader
assets that are not part of the orchestration source; they run 32×32
threads per workgroup, matching the `(resolution + 31) // 32` dispatch
arithmetic in the Python constructors. -/
def perCellLocalSize : Nat := 32

/-- `node.add_dispatch(self._groups_x, n, 1)` for each IFFT pass. -/
def fftDispatch (n : Nat) : Nat × Nat × Nat :=
  (fftGroupsX n, n, 1)

/-- C10: for every positive resolution `N = m + 1`, the per-cell stages
dispatch `((N+31)/32)` workgroups of 32 threads per axis, which covers all
`N` cells of that axis, and each IFFT pass dispatches
`((N/2) + 255) / 256` workgroups of 256 threads in X (and `N` rows in Y),
which covers all `N/2` butterfly threads per row or column. -/
theorem dispatch_covers_grid (m : Nat) :
    perCellDispatch (m + 1) = ((m + 1 + 31) / 32, (m + 1 + 31) / 32, 1)
    ∧ m + 1 ≤ perCellLocalSize * perCellGroups (m + 1)
    ∧ fftDispatch (m + 1) = (((m + 1) / 2 + 255) / 256, m + 1, 1)
    ∧ fftThreadCount (m + 1) ≤ fftWorkgroupSizeX * fftGroupsX (m + 1) := by
  refine ⟨rfl, ?_, rfl, ?_⟩
  · have h1 := Nat.div_add_mod (m + 1 + 31) 32
    have h2 : (m + 1 + 31) % 32 < 32 := Nat.mod_lt _ (by norm_num)
    unfold perCellLocalSize perCellGroups
    omega
  · have h1 := Nat.div_add_mod (fftThreadCount (m + 1) + 255) 256
    have h2 : (fftThreadCount (m + 1) + 255) % 256 < 256 := Nat.mod_lt _ (by norm_num)
    unfold fftGroupsX fftWorkgroupSizeX
    omega

/-! ## OceanTimeSpectrum (src/ocean/ocean_time_spectrum.py) -/

/-- The two phase textures of `OceanTimeSpectrum`, by identity
(`phase_ping`, `phase_pong`). -/
inductive PTex where
  | ping
  | pong
deriving DecidableEq, Repr

/-- Contents of a phase texture as `_make_phase_texture` builds it: the
clear color passed to `set_clear_color` and the ram image installed by
`set_ram_image` (empty when no ram image is set).  Values live in an
arbitrary linear ordered field `α` standing for the Python floats; `piVal`
stands for `math.pi` and `rand i` for the `i`-th call of
`random.random()`, whose contract is `0 ≤ rand i < 1`. -/
structure PhaseTexture (α : Type) where
  clearColor : α × α × α × α
  ramData : List α

/-- `_make_phase_texture(name, seed_random)`: always
`set_clear_color((0.0, 0.0, 0.0, 0.0))`; if `seed_random`, fill a
`resolution * resolution` array with `random.random() * (2.0 * math.pi)`
and install it as the ram image. -/
def makePhaseTexture {α : Type} [LinearOrderedField α] (piVal : α) (resolution : Nat)
    (seedRandom : Bool) (rand : Nat → α) : PhaseTexture α :=
  { clearColor := (0, 0, 0, 0)
    ramData :=
      if seedRandom then
        (List.range (resolution * resolution)).map (fun i => rand i * (2 * piVal))
      else [] }

/-- `self.phase_ping = self._make_phase_texture("phase_ping", seed_random=True)`. -/
def oceanTimePhasePing {α : Type} [LinearOrderedField α] (piVal : α) (resolution : Nat)
    (rand : Nat → α) : PhaseTexture α :=
  makePhaseTexture piVal resolution true rand

/-- `self.phase_pong = self._make_phase_texture("phase_pong", seed_random=False)`. -/
def oceanTimePhasePong {α : Type} [LinearOrderedField α] (piVal : α) (resolution : Nat)
    (rand : Nat → α) : PhaseTexture α :=
  makePhaseTexture piVal resolution false rand

/-- `self._phase_is_ping = True` in `OceanTimeSpectrum.__init__`. -/
def initialPhaseIsPing : Bool := true

/-- The mutable state of `OceanTimeSpectrum` that `_apply_phase_bindings`,
`step` and `debug_current_phase_texture` touch: the role flag and the
shader-input bindings of the phase node (`u_phases`, `u_delta_phases`,
`u_delta_time`) and of the time-spectrum node (`u_phases`). -/
structure TSState where
  phaseIsPing : Bool
  phaseSrc : PTex
  phaseDst : PTex
  deltaTime : ℚ
  spectrumPhases : PTex
deriving DecidableEq, Repr

/-- `_apply_phase_bindings(delta_time)`: pick `src`/`dst` from the role
flag, bind `u_phases := src`, `u_delta_phases := dst`,
`u_delta_time := delta_time` on the phase node and `u_phases := dst` on
the time-spectrum node. -/
def applyPhaseBindings (st : TSState) (deltaTime : ℚ) : TSState :=
  let src := if st.phaseIsPing then PTex.ping else PTex.pong
  let dst := if st.phaseIsPing then PTex.pong else PTex.ping
  { st with
    phaseSrc := src
    phaseDst := dst
    deltaTime := deltaTime
    spectrumPhases := dst }

/-- End of `OceanTimeSpectrum.__init__`: the role flag starts at `True`
(ping is the seeded source) and `_apply_phase_bindings(delta_time=0.0)` is
applied; the placeholder binding values are immediately overwritten. -/
def initTimeSpectrum : TSState :=
  applyPhaseBindings
    { phaseIsPing := initialPhaseIsPing
      phaseSrc := PTex.ping
      phaseDst := PTex.ping
      deltaTime := 0
      spectrumPhases := PTex.ping } 0

/-- `step(delta_time)`: `_apply_phase_bindings(delta_time)` then
`self._phase_is_ping = not self._phase_is_ping`. -/
def stepTimeSpectrum (st : TSState) (deltaTime : ℚ) : TSState :=
  let st1 := applyPhaseBindings st deltaTime
  { st1 with phaseIsPing := !st1.phaseIsPing }

/-- `debug_current_phase_texture()`: a pure read returning
`phase_ping if self._phase_is_ping else phase_pong`; the method body
contains no assignment, so it is embedded as a function of the state with
no state output. -/
def debugCurrentPhaseTexture (st : TSState) : PTex :=
  if st.phaseIsPing then PTex.ping else PTex.pong

/-- The state after a sequence of `step` calls on a freshly constructed
`OceanTimeSpectrum`, one list entry per call (the entry is the
`delta_time` argument). -/
def runTimeSteps (dts : List ℚ) : TSState :=
  dts.foldl stepTimeSpectrum initTimeSpectrum

/-- C2: for every `step` call (from any state) the phase kernel's source
and destination are distinct and determined by the role flag, the
time-spectrum node's `u_phases` is bound to that same destination, and the
role flag flips after the step; the bindings applied at construction
satisfy the same source/destination discipline. -/
theorem step_phase_binding_discipline (st : TSState) (dt dt2 : ℚ) :
    ((stepTimeSpectrum st dt).phaseSrc
        = (if st.phaseIsPing then PTex.ping else PTex.pong))
    ∧ ((stepTimeSpectrum st dt).phaseDst
        = (if st.phaseIsPing then PTex.pong else PTex.ping))
    ∧ (stepTimeSpectrum st dt).phaseSrc ≠ (stepTimeSpectrum st dt).phaseDst
    ∧ (stepTimeSpectrum st dt).spectrumPhases = (stepTimeSpectrum st dt).phaseDst
    ∧ (stepTimeSpectrum st dt).phaseIsPing = !st.phaseIsPing
    ∧ (stepTimeSpectrum (stepTimeSpectrum st dt) dt2).phaseSrc
        = (stepTimeSpectrum st dt).phaseDst
    ∧ initTimeSpectrum.phaseSrc ≠ initTimeSpectrum.phaseDst
    ∧ initTimeSpectrum.spectrumPhases = initTimeSpectrum.phaseDst := by
  cases hb : st.phaseIsPing <;>
    simp [stepTimeSpectrum, applyPhaseBindings, initTimeSpectrum, initialPhaseIsPing, hb]

/-- C8: `debug_current_phase_texture` returns the phase texture most
recently written — the destination bound by the last `step`, or the
randomly seeded `phase_ping` when `step` has never been called; being a
pure read, it is embedded as a function and by construction changes no
state. -/
theorem debugCurrentPhaseTexture_returns_last_written :
    debugCurrentPhaseTexture initTimeSpectrum = PTex.ping
    ∧ (∀ (st : TSState) (dt : ℚ),
        debugCurrentPhaseTexture (stepTimeSpectrum st dt) = (stepTimeSpectrum st dt).phaseDst)
    ∧ (∀ (dts : List ℚ) (dt : ℚ),
        debugCurrentPhaseTexture (runTimeSteps (dts ++ [dt]))
          = (runTimeSteps (dts ++ [dt])).phaseDst) := by
  have hstep : ∀ (st : TSState) (dt : ℚ),
      debugCurrentPhaseTexture (stepTimeSpectrum st dt) = (stepTimeSpectrum st dt).phaseDst := by
    intro st dt
    cases hb : st.phaseIsPing <;>
      simp [stepTimeSpectrum, applyPhaseBindings, debugCurrentPhaseTexture, hb]
  refine ⟨rfl, hstep, ?_⟩
  intro dts dt
  have : runTimeSteps (dts ++ [dt]) = stepTimeSpectrum (runTimeSteps dts) dt := by
    simp [runTimeSteps]
  rw [this]
  exact hstep _ _

/-- C7: at construction the ping texture — the initial source, since the
role flag starts at ping — receives a ram image of `resolution²`
independently drawn values `rand i * (2·π)`, each in `[0, 2π)` whenever
`rand` obeys the `random.random()` contract `0 ≤ rand i < 1`; the pong
texture gets only the zero clear color and no random data. -/
theorem phase_texture_initialization {α : Type} [LinearOrderedField α]
    (piVal : α) (rand : Nat → α) (res : Nat)
    (hpi : 0 < piVal) (hr : ∀ i, 0 ≤ rand i ∧ rand i < 1) :
    (oceanTimePhasePing piVal res rand).ramData
        = (List.range (res * res)).map (fun i => rand i * (2 * piVal))
    ∧ (oceanTimePhasePing piVal res rand).ramData.length = res * res
    ∧ (∀ x ∈ (oceanTimePhasePing piVal res rand).ramData, 0 ≤ x ∧ x < 2 * piVal)
    ∧ (oceanTimePhasePong piVal res rand).ramData = []
    ∧ (oceanTimePhasePong piVal res rand).clearColor = (0, 0, 0, 0)
    ∧ initialPhaseIsPing = true := by
  refine ⟨rfl, by simp [oceanTimePhasePing, makePhaseTexture], ?_, rfl, rfl, rfl⟩
  intro x hx
  simp only [oceanTimePhasePing, makePhaseTexture, if_true, List.mem_map,
    List.mem_range] at hx
  obtain ⟨i, -, rfl⟩ := hx
  have h2pi : (0 : α) < 2 * piVal := by linarith
  constructor
  · exact mul_nonneg (hr i).1 (le_of_lt h2pi)
  · exact mul_lt_of_lt_one_left h2pi (hr i).2

theorem phase_texture_initialization_witness :
    (0 : ℚ) < 4
    ∧ (∀ i : Nat, (0 : ℚ) ≤ (fun _ : Nat => (0 : ℚ)) i ∧ (fun _ : Nat => (0 : ℚ)) i < 1)
    ∧ (∀ x ∈ (oceanTimePhasePing (4 : ℚ) 2 (fun _ => 0)).ramData, 0 ≤ x ∧ x < 2 * 4) :=
  ⟨by norm_num, fun i => ⟨le_refl 0, by norm_num⟩,
    (phase_texture_initialization (4 : ℚ) (fun _ => 0) 2 (by norm_num)
      (fun i => ⟨le_refl 0, by norm_num⟩)).2.2.1⟩

/-! ## OceanSpectrumGenerator (src/ocean/ocean_spectrum_generator.py) -/

/-- Spectrum texture objects by identity: a texture freshly created by
`create_texture(resolution)` inside `generate`, or a caller-supplied
target texture (tagged with an arbitrary identifier). -/
inductive SpecTex where
  | fresh (resolution : Int)
  | supplied (id : Nat)
deriving DecidableEq, Repr

/-- `OceanSpectrumConfig` (resolution, ocean_size, wind_x, wind_y). -/
structure OceanSpectrumConfig where
  resolution : Int
  oceanSize : Int
  windX : ℚ
  windY : ℚ
deriving DecidableEq, Repr

/-- Observable outcome of `OceanSpectrumGenerator.generate`: the texture it
returns and the workgroup triple it passes to `dispatch_compute`. -/
structure GenerateResult where
  returned : SpecTex
  dispatchGroups : Int × Int × Int
deriving DecidableEq, Repr

/-- `OceanSpectrumGenerator.generate(app, config, target_tex)`: when
`target_tex is None` it creates a texture of `config.resolution`; it binds
the shader inputs, computes
`groups = (int((config.resolution + 31) // 32), int((config.resolution + 31) // 32), 1)`
(`Int.fdiv` is Python floor division), dispatches, and returns the target
texture.  Note that the function performs no validation of
`config.resolution` whatsoever. -/
def generate (config : OceanSpectrumConfig) (targetTex : Option SpecTex) : GenerateResult :=
  let target :=
    match targetTex with
    | none => SpecTex.fresh config.resolution
    | some t => t
  { returned := target
    dispatchGroups :=
      ((config.resolution + 31).fdiv 32, (config.resolution + 31).fdiv 32, 1) }

/-- C5 counterexample: at the concrete non-power-of-two resolution 3,
`generate` does not fail fast — it dispatches one workgroup and returns a
freshly created spectrum texture. -/
theorem generate_accepts_non_pow2 :
    (¬ ∃ k : Nat, (3 : Int) = 2 ^ k)
    ∧ generate { resolution := 3, oceanSize := 100, windX := 60, windY := 30 } none
        = { returned := SpecTex.fresh 3, dispatchGroups := (1, 1, 1) } := by
  constructor
  · rintro ⟨k, hk⟩
    match k, hk with
    | 0, hk => simp at hk
    | 1, hk => simp at hk
    | (k + 2), hk =>
      have h4 : (4 : Int) ≤ 2 ^ (k + 2) := by
        calc (4 : Int) = 2 ^ 2 := by norm_num
        _ ≤ 2 ^ (k + 2) := pow_le_pow_right₀ (by norm_num) (by omega)
      omega
  · rfl

/-- C5 amended: `generate` never rejects any configuration; for every
resolution it returns a spectrum texture — the caller-supplied target when
one is given, otherwise a freshly created texture of that resolution. -/
theorem generate_always_returns (config : OceanSpectrumConfig) (t : SpecTex) :
    (generate config (some t)).returned = t
    ∧ (generate config none).returned = SpecTex.fresh config.resolution :=
  ⟨rfl, rfl⟩

/-! ## OceanApp runtime setters (src/app/ocean_app.py) -/

/-- The slice of `OceanApp` state touched by the simulation-parameter
setters: the app's own `_resolution`, `_ocean_size`, `_wind_x`, `_wind_y`,
`_choppiness`; the configs and shader inputs those setters forward to
(`ocean_time.config.choppiness`, `ocean_time.config.ocean_size`, the
`u_choppiness` input of the time-spectrum node, the `u_ocean_size` inputs
of the phase, time-spectrum and slope nodes, `ocean_maps.config.ocean_size`);
and the identity of `initial_spectrum_tex`. -/
structure AppState where
  resolution : Int
  oceanSize : Int
  windX : ℚ
  windY : ℚ
  choppiness : ℚ
  timeConfigChoppiness : ℚ
  timeConfigOceanSize : Int
  spectrumNpChoppiness : ℚ
  phaseNpOceanSize : Int
  spectrumNpOceanSize : Int
  mapsConfigOceanSize : Int
  slopeNpOceanSize : Int
  initialSpectrumTex : SpecTex
deriving DecidableEq, Repr

/-- A call of `OceanSpectrumGenerator.generate` as observed from the app:
the config it was given, the `target_tex` argument, and the texture it
returned. -/
structure GenCall where
  cfg : OceanSpectrumConfig
  targetArg : Option SpecTex
  returned : SpecTex
deriving DecidableEq, Repr

/-- `OceanApp._regenerate_initial_spectrum`: re-invoke `generate` with the
current parameters and `target_tex=self.initial_spectrum_tex`. -/
def regenerateInitialSpectrum (st : AppState) : GenCall :=
  let cfg : OceanSpectrumConfig :=
    { resolution := st.resolution
      oceanSize := st.oceanSize
      windX := st.windX
      windY := st.windY }
  { cfg := cfg
    targetArg := some st.initialSpectrumTex
    returned := (generate cfg (some st.initialSpectrumTex)).returned }

/-- `OceanApp.set_choppiness`: update `_choppiness`,
`ocean_time.config.choppiness` and the `u_choppiness` shader input of the
time-spectrum node; no regeneration.  The second component lists the
`generate` calls the setter performs. -/
def setChoppiness (st : AppState) (value : ℚ) : AppState × List GenCall :=
  ({ st with
      choppiness := value
      timeConfigChoppiness := value
      spectrumNpChoppiness := value }, [])

/-- `OceanApp.set_wind`: update `_wind_x`, `_wind_y`, then
`_regenerate_initial_spectrum()`. -/
def setWind (st : AppState) (wx wy : ℚ) : AppState × List GenCall :=
  let st1 := { st with windX := wx, windY := wy }
  (st1, [regenerateInitialSpectrum st1])

/-- `OceanApp.set_ocean_size`: update `_ocean_size`,
`ocean_time.config.ocean_size`, the `u_ocean_size` inputs of the phase and
time-spectrum nodes, `ocean_maps.config.ocean_size`, the `u_ocean_size`
input of the slope node, then `_regenerate_initial_spectrum()`. -/
def setOceanSize (st : AppState) (oceanSize : Int) : AppState × List GenCall :=
  let st1 := { st with
      oceanSize := oceanSize
      timeConfigOceanSize := oceanSize
      phaseNpOceanSize := oceanSize
      spectrumNpOceanSize := oceanSize
      mapsConfigOceanSize := oceanSize
      slopeNpOceanSize := oceanSize }
  (st1, [regenerateInitialSpectrum st1])

/-- C6: `set_wind` and `set_ocean_size` regenerate the initial spectrum in
place — `generate` is re-invoked with the existing spectrum texture as the
caller-supplied target and returns that very same texture object, so the
app still holds the same texture afterwards — while `set_choppiness`
changes only the choppiness configuration value and the assembler's
`u_choppiness` shader input and performs no `generate` call. -/
theorem setters_regeneration_behavior (st : AppState) (wx wy v : ℚ) (sz : Int) :
    (setWind st wx wy).2 =
      [{ cfg := { resolution := st.resolution, oceanSize := st.oceanSize,
                  windX := wx, windY := wy }
         targetArg := some st.initialSpectrumTex
         returned := st.initialSpectrumTex }]
    ∧ (setWind st wx wy).1.initialSpectrumTex = st.initialSpectrumTex
    ∧ (setOceanSize st sz).2 =
      [{ cfg := { resolution := st.resolution, oceanSize := sz,
                  windX := st.windX, windY := st.windY }
         targetArg := some st.initialSpectrumTex
         returned := st.initialSpectrumTex }]
    ∧ (setOceanSize st sz).1.initialSpectrumTex = st.initialSpectrumTex
    ∧ setChoppiness st v =
      ({ st with
          choppiness := v
          timeConfigChoppiness := v
          spectrumNpChoppiness := v }, []) :=
  ⟨rfl, rfl, rfl, rfl, rfl⟩

/-! ## Runtime configuration surface (claim C9) -/

/-- The four simulation-configuration options the spec recognizes. -/
inductive SimParam where
  | resolution
  | oceanSize
  | windVector
  | choppiness
deriving DecidableEq, Repr

/-- The simulation-configuration options for which `OceanApp` exposes a
runtime setter: `set_choppiness`, `set_wind` and `set_ocean_size`.  The
class defines no setter that assigns `_resolution` (its remaining setters
touch only rendering parameters), and the debug UI displays the resolution
read-only, labelled `restart/rebuild`. -/
def runtimeSettableParams : List SimParam :=
  [SimParam.choppiness, SimParam.windVector, SimParam.oceanSize]

/-- Default parameter values from `OceanApp.__init__` (resolution 1024,
ocean size 150, wind (60, 30), choppiness 1.5), used as a concrete state. -/
def defaultAppState : AppState :=
  { resolution := 1024
    oceanSize := 150
    windX := 60
    windY := 30
    choppiness := 3 / 2
    timeConfigChoppiness := 3 / 2
    timeConfigOceanSize := 150
    spectrumNpChoppiness := 3 / 2
    phaseNpOceanSize := 150
    spectrumNpOceanSize := 150
    mapsConfigOceanSize := 150
    slopeNpOceanSize := 150
    initialSpectrumTex := SpecTex.fresh 1024 }

/-- C9 counterexample: resolution is not among the runtime-settable
options, and at the concrete default state none of the existing runtime
setters changes the resolution. -/
theorem no_runtime_resolution_setter :
    SimParam.resolution ∉ runtimeSettableParams
    ∧ (setChoppiness defaultAppState 2).1.resolution = defaultAppState.resolution
    ∧ (setWind defaultAppState 1 2).1.resolution = defaultAppState.resolution
    ∧ (setOceanSize defaultAppState 256).1.resolution = defaultAppState.resolution := by
  refine ⟨?_, rfl, rfl, rfl⟩
  decide

/-- C9 amended: oceanSize, windVector and choppiness each have a runtime
setter and each setter updates its own option independently, leaving the
others (and in particular the resolution) unchanged; resolution has no
runtime setter and is fixed at construction. -/
theorem runtime_configuration_surface :
    (SimParam.oceanSize ∈ runtimeSettableParams
      ∧ SimParam.windVector ∈ runtimeSettableParams
      ∧ SimParam.choppiness ∈ runtimeSettableParams
      ∧ SimParam.resolution ∉ runtimeSettableParams)
    ∧ (∀ (st : AppState) (v : ℚ),
        (setChoppiness st v).1.choppiness = v
        ∧ (setChoppiness st v).1.resolution = st.resolution
        ∧ (setChoppiness st v).1.oceanSize = st.oceanSize
        ∧ (setChoppiness st v).1.windX = st.windX
        ∧ (setChoppiness st v).1.windY = st.windY)
    ∧ (∀ (st : AppState) (wx wy : ℚ),
        (setWind st wx wy).1.windX = wx
        ∧ (setWind st wx wy).1.windY = wy
        ∧ (setWind st wx wy).1.resolution = st.resolution
        ∧ (setWind st wx wy).1.oceanSize = st.oceanSize
        ∧ (setWind st wx wy).1.choppiness = st.choppiness)
    ∧ (∀ (st : AppState) (sz : Int),
        (setOceanSize st sz).1.oceanSize = sz
        ∧ (setOceanSize st sz).1.resolution = st.resolution
        ∧ (setOceanSize st sz).1.windX = st.windX
        ∧ (setOceanSize st sz).1.windY = st.windY
        ∧ (setOceanSize st sz).1.choppiness = st.choppiness) :=
  ⟨⟨by decide, by decide, by decide, by decide⟩,
    fun _ _ => ⟨rfl, rfl, rfl, rfl, rfl⟩,
    fun _ _ _ => ⟨rfl, rfl, rfl, rfl, rfl⟩,
    fun _ _ => ⟨rfl, rfl, rfl, rfl, rfl⟩⟩
